import Mathlib

/-!
Verification of the test-outcome classifier and the analytics aggregator of
the Software-automation repository, embedded shallowly from the files
login_test.py and automated_login_test.py.  Python strings are modelled as
Lean strings, or as lists of characters where character-level operations
(substring search, upper-casing, stripping) matter; Python floats are
modelled as rationals; a ZeroDivisionError is modelled by an Option-valued
result being none.
-/

/-- Python substring test: the expression sub in s on strings. -/
def pySubstr (sub : List Char) : List Char → Bool
  | [] => sub.isEmpty
  | c :: rest => sub.isPrefixOf (c :: rest) || pySubstr sub rest

/-- Python str.upper, character by character. -/
def pyUpper (s : List Char) : List Char := s.map Char.toUpper

/-- Python str.strip: remove leading and trailing whitespace. -/
def pyStrip (s : List Char) : List Char :=
  ((s.dropWhile Char.isWhitespace).reverse.dropWhile Char.isWhitespace).reverse

/-- The valid username configured in login_test.py. -/
def validUsername : List Char := "testuser@example.com".data

/-- The valid password configured in login_test.py. -/
def validPassword : List Char := "ValidPass123!".data

/-- The single-quote character scanned for by the injection check. -/
def sqlQuote : List Char := [Char.ofNat 39]

/-- The boolean-OR keyword scanned for by the injection check. -/
def orKeyword : List Char := ['O', 'R']

/-- The SQL comment marker scanned for by the injection check. -/
def doubleDash : List Char := ['-', '-']

/-- Rule-based outcome classifier: ai_determine_result in login_test.py.
The branches are, in order: exact match of the configured valid pair,
injection-pattern substrings in the username, empty or whitespace-only
fields, over-long fields, and a default. -/
def ai_determine_result (username password : List Char) : String :=
  if username = validUsername ∧ password = validPassword then "success"
  else if pySubstr sqlQuote username || pySubstr orKeyword (pyUpper username) ||
      pySubstr doubleDash username then "failure"
  else if (pyStrip username).isEmpty || (pyStrip password).isEmpty then "failure"
  else if username.length > 255 ∨ password.length > 255 then "failure"
  else "failure"

lemma ai_determine_result_eq_ite (username password : List Char) :
    ai_determine_result username password =
      if username = validUsername ∧ password = validPassword then "success"
      else "failure" := by
  unfold ai_determine_result
  split_ifs <;> rfl

/-- Claim C3: in rule-based mode the classifier is a total function into the
labels success and failure; it returns success exactly on the configured
valid pair, returns failure when the username holds an injection-pattern
substring, when a field is empty or whitespace-only, when a field exceeds
the maximum length, and in every remaining case; it never returns an
indeterminate label. -/
theorem c3_rule_based_total (username password : List Char) :
    (ai_determine_result username password = "success" ∨
      ai_determine_result username password = "failure") ∧
    (ai_determine_result username password = "success" ↔
      username = validUsername ∧ password = validPassword) ∧
    ((pySubstr sqlQuote username || pySubstr orKeyword (pyUpper username) ||
        pySubstr doubleDash username) = true →
      ai_determine_result username password = "failure") ∧
    (((pyStrip username).isEmpty || (pyStrip password).isEmpty) = true →
      ai_determine_result username password = "failure") ∧
    (username.length > 255 ∨ password.length > 255 →
      ai_determine_result username password = "failure") ∧
    ai_determine_result username password ≠ "indeterminate" ∧
    ai_determine_result username password ≠ "unknown" := by
  rw [ai_determine_result_eq_ite]
  by_cases hv : username = validUsername ∧ password = validPassword
  · rw [if_pos hv]
    refine ⟨Or.inl rfl, ⟨fun _ => hv, fun _ => rfl⟩, ?_, ?_, ?_, by decide, by decide⟩
    · intro hsub
      rw [hv.1] at hsub
      exact absurd hsub (by decide)
    · intro hst
      rw [hv.1, hv.2] at hst
      exact absurd hst (by decide)
    · intro hlen
      rcases hlen with h | h
      · rw [hv.1] at h
        exact absurd h (by decide)
      · rw [hv.2] at h
        exact absurd h (by decide)
  · rw [if_neg hv]
    exact ⟨Or.inr rfl, ⟨fun h => absurd h (by decide), fun h => absurd h hv⟩,
      fun _ => rfl, fun _ => rfl, fun _ => rfl, by decide, by decide⟩

theorem c3_rule_based_total_witness :
    ai_determine_result ['a', Char.ofNat 39] ['b'] = "failure" :=
  (c3_rule_based_total ['a', Char.ofNat 39] ['b']).2.2.1 (by decide)

/-- The literal SQL injection username from the scenario, the string
admin OR 1 = 1 punctuated with single quotes as in the source. -/
def sqlInjectionUsername : List Char :=
  ['a', 'd', 'm', 'i', 'n', Char.ofNat 39, ' ', 'O', 'R', ' ',
   Char.ofNat 39, '1', Char.ofNat 39, '=', Char.ofNat 39, '1']

/-- Claim C7: the SQL injection username with password "password"
classifies as failure, and the configured valid credential pair classifies
as success, in rule-based mode. -/
theorem c7_scenarios :
    ai_determine_result sqlInjectionUsername "password".data = "failure" ∧
    ai_determine_result validUsername validPassword = "success" := by
  constructor <;> decide

/-- One page indicator probed by the driver: whether find_element located it
and whether it is displayed, together with its text. -/
structure Indicator where
  found : Bool
  displayed : Bool
  text : String
deriving DecidableEq

/-- The raw evidence bundle an executed login attempt yields: the probed
success indicators and failure indicators, in their fixed priority order. -/
structure RawSignal where
  successIndicators : List Indicator
  failureIndicators : List Indicator
deriving DecidableEq

/-- An indicator counts as a hit when the element was found and displayed,
as in the loops of execute_login_test in automated_login_test.py. -/
def indicatorHit (i : Indicator) : Bool := i.found && i.displayed

/-- The failure-indicator loop: text of the first indicator that is found
and displayed, scanning in the fixed order. -/
def firstFailureMessage : List Indicator → Option String
  | [] => none
  | i :: rest => if indicatorHit i then some i.text else firstFailureMessage rest

/-- The result-determination block of execute_login_test: success when any
success indicator hits, else failure when any failure indicator hits, else
the unknown label. -/
def classify_signal (sig : RawSignal) : String :=
  if sig.successIndicators.any indicatorHit then "success"
  else if (firstFailureMessage sig.failureIndicators).isSome then "failure"
  else "unknown"

/-- The fields of the per-test result dictionary of execute_login_test that
the claims concern.  Display-only fields (test name, description, the
credentials, screenshot flag, timestamp) are omitted. -/
structure ExecResult where
  expected_result : String
  actual_result : Option String
  status : String
  error_message : Option String
deriving DecidableEq

/-- execute_login_test from automated_login_test.py.  The driver
interaction is the input: either a fault with its message, caught by the
except branch, or the raw signal bundle the page shows. -/
def execute_login_test (expected : String) (driver : Except String RawSignal) :
    ExecResult :=
  match driver with
  | Except.error msg =>
      { expected_result := expected
        actual_result := none
        status := "ERROR"
        error_message := some msg }
  | Except.ok sig =>
      { expected_result := expected
        actual_result := some (classify_signal sig)
        status := if classify_signal sig = expected then "PASS" else "FAIL"
        error_message := firstFailureMessage sig.failureIndicators }

/-- One test case of the simulated suite in login_test.py.  The identity
and priority fields that no claim touches are omitted. -/
structure TestCase where
  name : String
  username : List Char
  password : List Char
  expected : String
  category : String
  risk_level : String

/-- The base confidence of calculate_ai_confidence: 0.85, overridden to
0.95 for the security category and to 0.80 for the edge_case category. -/
def ai_confidence_base (category : String) : ℚ :=
  let base0 : ℚ := 0.85
  let base1 : ℚ := if category = "security" then 0.95 else base0
  if category = "edge_case" then 0.80 else base1

/-- calculate_ai_confidence from login_test.py: the base confidence raised
by 0.10 and clamped at 1.0 on a match, lowered by 0.20 and clamped at 0.5
on a mismatch. -/
def calculate_ai_confidence (category expected actual : String) : ℚ :=
  if actual = expected then min (ai_confidence_base category + 0.10) 1.0
  else max (ai_confidence_base category - 0.20) 0.5

/-- The fields of the result dictionary of simulate_login_attempt that the
claims and the aggregator consume.  Display-only fields (test id, test
name, the truncated username, timestamp) are omitted. -/
structure OutcomeRecord where
  category : String
  expected_result : String
  actual_result : String
  status : String
  execution_time : ℚ
  risk_level : String
  ai_confidence : ℚ
deriving DecidableEq

/-- simulate_login_attempt from login_test.py.  The measured wall-clock
duration is an input. -/
def simulate_login_attempt (tc : TestCase) (execution_time : ℚ) : OutcomeRecord :=
  { category := tc.category
    expected_result := tc.expected
    actual_result := ai_determine_result tc.username tc.password
    status := if ai_determine_result tc.username tc.password = tc.expected
      then "PASS" else "FAIL"
    execution_time := execution_time
    risk_level := tc.risk_level
    ai_confidence := calculate_ai_confidence tc.category tc.expected
      (ai_determine_result tc.username tc.password) }

/-- Claim C2: a record has status PASS exactly when no driver fault
occurred and the actual result equals the expected result; a driver fault
yields status ERROR; otherwise the status is FAIL.  Covers both
execute_login_test of automated_login_test.py and simulate_login_attempt
of login_test.py, which has no fault path. -/
theorem c2_status_derivation :
    (∀ (expected : String) (driver : Except String RawSignal),
      ((execute_login_test expected driver).status = "PASS" ↔
        (∃ sig, driver = Except.ok sig) ∧
          (execute_login_test expected driver).actual_result = some expected) ∧
      (∀ msg, driver = Except.error msg →
        (execute_login_test expected driver).status = "ERROR") ∧
      (∀ sig, driver = Except.ok sig →
        (execute_login_test expected driver).actual_result ≠ some expected →
          (execute_login_test expected driver).status = "FAIL")) ∧
    (∀ (tc : TestCase) (t : ℚ),
      ((simulate_login_attempt tc t).status = "PASS" ↔
        (simulate_login_attempt tc t).actual_result = tc.expected) ∧
      ((simulate_login_attempt tc t).status = "FAIL" ↔
        ¬ (simulate_login_attempt tc t).actual_result = tc.expected)) := by
  constructor
  · intro expected driver
    cases driver with
    | error msg =>
        refine ⟨?_, ?_, ?_⟩
        · simp only [execute_login_test]
          constructor
          · intro h; exact absurd h (by decide)
          · rintro ⟨⟨sig, hsig⟩, -⟩
            exact Except.noConfusion hsig
        · intro m hm
          rfl
        · intro sig hsig
          exact Except.noConfusion hsig
    | ok sig =>
        refine ⟨?_, ?_, ?_⟩
        · simp only [execute_login_test]
          by_cases h : classify_signal sig = expected
          · rw [if_pos h]
            exact ⟨fun _ => ⟨⟨sig, rfl⟩, by rw [h]⟩, fun _ => rfl⟩
          · rw [if_neg h]
            constructor
            · intro hfp; exact absurd hfp (by decide)
            · rintro ⟨-, hsome⟩
              exact absurd (Option.some.inj hsome) h
        · intro m hm
          exact Except.noConfusion hm
        · intro sig2 hsig2 hne
          simp only [execute_login_test] at hne ⊢
          rw [if_neg]
          intro hc
          exact hne (by rw [hc])
  · intro tc t
    simp only [simulate_login_attempt]
    by_cases h : ai_determine_result tc.username tc.password = tc.expected
    · rw [if_pos h]
      exact ⟨⟨fun _ => h, fun _ => rfl⟩,
        ⟨fun hf => absurd hf (by decide), fun hn => absurd h hn⟩⟩
    · rw [if_neg h]
      exact ⟨⟨fun hf => absurd hf (by decide), fun hc => absurd hc h⟩,
        ⟨fun _ => h, fun _ => rfl⟩⟩

theorem c2_status_derivation_witness :
    (execute_login_test "success" (Except.error "timeout waiting for username field")).status
      = "ERROR" :=
  (c2_status_derivation.1 "success"
    (Except.error "timeout waiting for username field")).2.1
    "timeout waiting for username field" rfl

/-- Claim C4: the indicator scan gives success priority.  Any hit among the
success indicators yields the success label no matter what the failure
indicators show; with no success hit, the first failure hit yields the
failure label with that indicator text captured as the error message; with
no hit at all the label is the indeterminate one, spelled unknown in the
source.  The final clause identifies an empty scan result with the absence
of any failure hit. -/
theorem c4_success_priority (sig : RawSignal) (expected : String) :
    ((∃ i ∈ sig.successIndicators, indicatorHit i = true) →
      (execute_login_test expected (Except.ok sig)).actual_result = some "success") ∧
    ((¬ ∃ i ∈ sig.successIndicators, indicatorHit i = true) →
      ∀ m, firstFailureMessage sig.failureIndicators = some m →
        (execute_login_test expected (Except.ok sig)).actual_result = some "failure" ∧
        (execute_login_test expected (Except.ok sig)).error_message = some m) ∧
    ((¬ ∃ i ∈ sig.successIndicators, indicatorHit i = true) →
      firstFailureMessage sig.failureIndicators = none →
        (execute_login_test expected (Except.ok sig)).actual_result = some "unknown") ∧
    (firstFailureMessage sig.failureIndicators = none ↔
      ∀ i ∈ sig.failureIndicators, indicatorHit i = false) := by
  have hscan : ∀ l : List Indicator,
      firstFailureMessage l = none ↔ ∀ i ∈ l, indicatorHit i = false := by
    intro l
    induction l with
    | nil => simp [firstFailureMessage]
    | cons i rest ih =>
        by_cases hi : indicatorHit i = true
        · simp [firstFailureMessage, hi]
        · simp only [Bool.not_eq_true] at hi
          simp [firstFailureMessage, hi, ih]
  refine ⟨?_, ?_, ?_, hscan _⟩
  · intro hex
    have hany : sig.successIndicators.any indicatorHit = true :=
      List.any_eq_true.mpr hex
    simp [execute_login_test, classify_signal, hany]
  · intro hnex m hm
    have hany : sig.successIndicators.any indicatorHit = false := by
      rw [← Bool.not_eq_true, List.any_eq_true]
      exact hnex
    refine ⟨?_, ?_⟩ <;> simp [execute_login_test, classify_signal, hany, hm]
  · intro hnex hnone
    have hany : sig.successIndicators.any indicatorHit = false := by
      rw [← Bool.not_eq_true, List.any_eq_true]
      exact hnex
    simp [execute_login_test, classify_signal, hany, hnone]

/-- A signal in which a success indicator and a failure indicator are both
found and displayed at once. -/
def bothVisibleSignal : RawSignal :=
  { successIndicators := [{ found := true, displayed := true, text := "flash success" }]
    failureIndicators := [{ found := true, displayed := true, text := "flash error" }] }

theorem c4_success_priority_witness :
    (execute_login_test "success" (Except.ok bothVisibleSignal)).actual_result
      = some "success" :=
  (c4_success_priority bothVisibleSignal "success").1
    ⟨{ found := true, displayed := true, text := "flash success" }, by decide, rfl⟩

/-- Insight text for a 100 percent success rate. -/
def insightPerfect : String := "🎯 Perfect execution - All test scenarios handled correctly"

/-- Insight text for a success rate of at least 90. -/
def insightExcellent : String := "🏆 Excellent coverage - High reliability demonstrated"

/-- Insight text for a success rate of at least 75. -/
def insightGood : String := "✅ Good performance - Minor issues detected"

/-- Insight text for a success rate below 75. -/
def insightReview : String := "⚠️ Several failures detected - Review required"

/-- Insight text when every security-category record passed. -/
def insightSecOk : String := "🔒 Security tests passed - Strong input validation"

/-- Insight text when some security-category record did not pass. -/
def insightSecVuln : String := "🚨 Security vulnerabilities may exist"

/-- Insight text for an average execution time below 1 second. -/
def insightFast : String := "⚡ Excellent response times - Optimized performance"

/-- Insight text for an average execution time below 3 seconds. -/
def insightOkPerf : String := "👍 Good response times - Acceptable performance"

/-- Insight text for an average execution time of 3 seconds or more. -/
def insightSlow : String := "🐌 Slow response times - Performance optimization needed"

/-- The success-rate insight rule of generate_ai_analytics in
login_test.py, one branch taken in order. -/
def rate_insights (r : ℚ) : List String :=
  if r = 100 then [insightPerfect]
  else if r ≥ 90 then [insightExcellent]
  else if r ≥ 75 then [insightGood]
  else [insightReview]

/-- The records whose category is security, as filtered by
generate_ai_analytics. -/
def security_tests (results : List OutcomeRecord) : List OutcomeRecord :=
  results.filter fun r => r.category == "security"

/-- The security insight rule: validated when security records exist and
all pass, vulnerability warning when they exist and not all pass, nothing
otherwise. -/
def security_insights (sec : List OutcomeRecord) : List String :=
  if sec ≠ [] ∧ ∀ r ∈ sec, r.status = "PASS" then [insightSecOk]
  else if sec ≠ [] then [insightSecVuln]
  else []

/-- The performance insight rule over the average execution time. -/
def perf_insights (a : ℚ) : List String :=
  if a < 1 then [insightFast]
  else if a < 3 then [insightOkPerf]
  else [insightSlow]

/-- Number of records with status PASS. -/
def passedCount (results : List OutcomeRecord) : ℕ :=
  (results.filter fun r => r.status == "PASS").length

/-- Number of records with status FAIL. -/
def failedCount (results : List OutcomeRecord) : ℕ :=
  (results.filter fun r => r.status == "FAIL").length

/-- The guarded success-rate computation of generate_ai_analytics:
passed over total times 100, and 0 on an empty list. -/
def success_rate (results : List OutcomeRecord) : ℚ :=
  if 0 < results.length then (passedCount results : ℚ) / results.length * 100
  else 0

/-- The average execution time, as the unguarded Python expression: the sum
of the execution times divided by the number of records. -/
def avg_execution_time (results : List OutcomeRecord) : ℚ :=
  (results.map fun r => r.execution_time).sum / results.length

/-- One step of the category and risk dictionaries: create the entry on
first sight, then increment total and, for a passing record, passed.
Entries are kept in insertion order as Python dicts do. -/
def bumpBreakdown (m : List (String × ℕ × ℕ)) (key : String) (isPass : Bool) :
    List (String × ℕ × ℕ) :=
  if m.any fun e => e.1 == key then
    m.map fun e =>
      if e.1 == key then (e.1, e.2.1 + 1, e.2.2 + if isPass then 1 else 0) else e
  else m ++ [(key, 1, if isPass then 1 else 0)]

/-- The per-category breakdown dictionary, keyed by category with total and
passed counts. -/
def categoriesOf (results : List OutcomeRecord) : List (String × ℕ × ℕ) :=
  results.foldl (fun m r => bumpBreakdown m r.category (r.status == "PASS")) []

/-- The per-risk-level dictionary, keyed by risk level with total and
passed counts. -/
def riskAnalysisOf (results : List OutcomeRecord) : List (String × ℕ × ℕ) :=
  results.foldl (fun m r => bumpBreakdown m r.risk_level (r.status == "PASS")) []

/-- Round to the nearest integer with ties to even, as Python round does on
exact values. -/
def roundHalfEven (x : ℚ) : ℤ :=
  let f := ⌊x⌋
  if x - f < 1/2 then f
  else if 1/2 < x - f then f + 1
  else if f % 2 = 0 then f else f + 1

/-- Python round applied to an exact rational, with the given number of
digits after the point. -/
def pyRound (ndigits : ℕ) (x : ℚ) : ℚ :=
  (roundHalfEven (x * 10 ^ ndigits) : ℚ) / 10 ^ ndigits

/-- The summary block of the analytics report. -/
structure Summary where
  total_tests : ℕ
  passed : ℕ
  failed : ℕ
  success_rate : ℚ
  avg_execution_time : ℚ
  total_execution_time : ℚ

/-- The static recommendation strings of the report. -/
def recommendationsList : List String :=
  ["Implement continuous testing for regression prevention",
   "Add more edge cases for comprehensive coverage",
   "Monitor security test results regularly",
   "Consider load testing for performance validation"]

/-- The static coverage strings of the report. -/
def coverageList : List String :=
  ["✅ Basic authentication flows",
   "✅ Input validation testing",
   "✅ Security vulnerability scanning",
   "✅ Edge case handling",
   "✅ Error response validation"]

/-- The analytics report returned by generate_ai_analytics. -/
structure Analytics where
  summary : Summary
  category_breakdown : List (String × ℕ × ℕ)
  risk_analysis : List (String × ℕ × ℕ)
  ai_insights : List String
  recommendations : List String
  test_coverage_achieved : List String

/-- generate_ai_analytics from login_test.py.  The average execution time
is computed by an unguarded division, so on an empty record list the
Python function raises ZeroDivisionError before returning; the none result
models that fault.  The same unguarded division appears in the
generate_ai_analytics of automated_login_test.py. -/
def generate_ai_analytics (results : List OutcomeRecord) (total_time : ℚ) :
    Option Analytics :=
  if results.length = 0 then none
  else some
    { summary :=
        { total_tests := results.length
          passed := passedCount results
          failed := failedCount results
          success_rate := pyRound 2 (success_rate results)
          avg_execution_time := pyRound 3 (avg_execution_time results)
          total_execution_time := total_time }
      category_breakdown := categoriesOf results
      risk_analysis := riskAnalysisOf results
      ai_insights := rate_insights (success_rate results) ++
        security_insights (security_tests results) ++
        perf_insights (avg_execution_time results)
      recommendations := recommendationsList
      test_coverage_achieved := coverageList }

lemma generate_ai_analytics_of_ne_nil (results : List OutcomeRecord) (t : ℚ)
    (h : results ≠ []) :
    generate_ai_analytics results t = some
      { summary :=
          { total_tests := results.length
            passed := passedCount results
            failed := failedCount results
            success_rate := pyRound 2 (success_rate results)
            avg_execution_time := pyRound 3 (avg_execution_time results)
            total_execution_time := t }
        category_breakdown := categoriesOf results
        risk_analysis := riskAnalysisOf results
        ai_insights := rate_insights (success_rate results) ++
          security_insights (security_tests results) ++
          perf_insights (avg_execution_time results)
        recommendations := recommendationsList
        test_coverage_achieved := coverageList } := by
  unfold generate_ai_analytics
  rw [if_neg fun h0 => h (List.length_eq_zero.mp h0)]

lemma rate_insight_mem {s : String} {r : ℚ} (h : s ∈ rate_insights r) :
    s = insightPerfect ∨ s = insightExcellent ∨ s = insightGood ∨ s = insightReview := by
  unfold rate_insights at h
  split_ifs at h
  · exact Or.inl (List.mem_singleton.mp h)
  · exact Or.inr (Or.inl (List.mem_singleton.mp h))
  · exact Or.inr (Or.inr (Or.inl (List.mem_singleton.mp h)))
  · exact Or.inr (Or.inr (Or.inr (List.mem_singleton.mp h)))

lemma sec_insight_mem {s : String} {sec : List OutcomeRecord}
    (h : s ∈ security_insights sec) : s = insightSecOk ∨ s = insightSecVuln := by
  unfold security_insights at h
  split_ifs at h
  · exact Or.inl (List.mem_singleton.mp h)
  · exact Or.inr (List.mem_singleton.mp h)
  · exact absurd h (List.not_mem_nil _)

lemma perf_insight_mem {s : String} {a : ℚ} (h : s ∈ perf_insights a) :
    s = insightFast ∨ s = insightOkPerf ∨ s = insightSlow := by
  unfold perf_insights at h
  split_ifs at h
  · exact Or.inl (List.mem_singleton.mp h)
  · exact Or.inr (Or.inl (List.mem_singleton.mp h))
  · exact Or.inr (Or.inr (List.mem_singleton.mp h))

lemma notMem_rate_insights {s : String} (h1 : s ≠ insightPerfect)
    (h2 : s ≠ insightExcellent) (h3 : s ≠ insightGood) (h4 : s ≠ insightReview)
    (r : ℚ) : s ∉ rate_insights r := fun h => by
  rcases rate_insight_mem h with h | h | h | h
  exacts [h1 h, h2 h, h3 h, h4 h]

lemma notMem_security_insights {s : String} (h1 : s ≠ insightSecOk)
    (h2 : s ≠ insightSecVuln) (sec : List OutcomeRecord) :
    s ∉ security_insights sec := fun h => by
  rcases sec_insight_mem h with h | h
  exacts [h1 h, h2 h]

lemma notMem_perf_insights {s : String} (h1 : s ≠ insightFast)
    (h2 : s ≠ insightOkPerf) (h3 : s ≠ insightSlow) (a : ℚ) :
    s ∉ perf_insights a := fun h => by
  rcases perf_insight_mem h with h | h | h
  exacts [h1 h, h2 h, h3 h]

lemma mem_triple_append_left {s : String} {a b c : List String}
    (hb : s ∉ b) (hc : s ∉ c) : s ∈ a ++ b ++ c ↔ s ∈ a := by
  simp [List.mem_append, hb, hc]

lemma mem_triple_append_middle {s : String} {a b c : List String}
    (ha : s ∉ a) (hc : s ∉ c) : s ∈ a ++ b ++ c ↔ s ∈ b := by
  simp [List.mem_append, ha, hc]

lemma mem_triple_append_right {s : String} {a b c : List String}
    (ha : s ∉ a) (hb : s ∉ b) : s ∈ a ++ b ++ c ↔ s ∈ c := by
  simp [List.mem_append, ha, hb]

lemma insightPerfect_mem_rate_iff (r : ℚ) :
    insightPerfect ∈ rate_insights r ↔ r = 100 := by
  unfold rate_insights
  split_ifs with h1 h2 h3
  · simp [h1]
  · constructor
    · intro hm; exact absurd (List.mem_singleton.mp hm) (by decide)
    · intro hq; exact absurd hq h1
  · constructor
    · intro hm; exact absurd (List.mem_singleton.mp hm) (by decide)
    · intro hq; exact absurd hq h1
  · constructor
    · intro hm; exact absurd (List.mem_singleton.mp hm) (by decide)
    · intro hq; exact absurd hq h1

lemma insightExcellent_mem_rate_iff (r : ℚ) (hle : r ≤ 100) :
    insightExcellent ∈ rate_insights r ↔ 90 ≤ r ∧ r < 100 := by
  unfold rate_insights
  split_ifs with h1 h2 h3
  · constructor
    · intro hm; exact absurd (List.mem_singleton.mp hm) (by decide)
    · rintro ⟨-, hlt⟩; exact absurd h1 hlt.ne
  · constructor
    · intro _; exact ⟨h2, lt_of_le_of_ne hle h1⟩
    · intro _; exact List.mem_singleton.mpr rfl
  · constructor
    · intro hm; exact absurd (List.mem_singleton.mp hm) (by decide)
    · rintro ⟨h90, -⟩; exact absurd h90 h2
  · constructor
    · intro hm; exact absurd (List.mem_singleton.mp hm) (by decide)
    · rintro ⟨h90, -⟩; exact absurd h90 h2

lemma insightGood_mem_rate_iff (r : ℚ) :
    insightGood ∈ rate_insights r ↔ 75 ≤ r ∧ r < 90 := by
  unfold rate_insights
  split_ifs with h1 h2 h3
  · constructor
    · intro hm; exact absurd (List.mem_singleton.mp hm) (by decide)
    · rintro ⟨-, hlt⟩; rw [h1] at hlt; norm_num at hlt
  · constructor
    · intro hm; exact absurd (List.mem_singleton.mp hm) (by decide)
    · rintro ⟨-, hlt⟩; exact absurd h2 (not_le.mpr hlt)
  · constructor
    · intro _; exact ⟨h3, not_le.mp h2⟩
    · intro _; exact List.mem_singleton.mpr rfl
  · constructor
    · intro hm; exact absurd (List.mem_singleton.mp hm) (by decide)
    · rintro ⟨h75, -⟩; exact absurd h75 h3

lemma insightReview_mem_rate_iff (r : ℚ) :
    insightReview ∈ rate_insights r ↔ r < 75 := by
  unfold rate_insights
  split_ifs with h1 h2 h3
  · constructor
    · intro hm; exact absurd (List.mem_singleton.mp hm) (by decide)
    · intro hlt; rw [h1] at hlt; norm_num at hlt
  · constructor
    · intro hm; exact absurd (List.mem_singleton.mp hm) (by decide)
    · intro hlt; exact (False.elim (by linarith))
  · constructor
    · intro hm; exact absurd (List.mem_singleton.mp hm) (by decide)
    · intro hlt; exact absurd h3 (not_le.mpr hlt)
  · constructor
    · intro _; exact not_le.mp h3
    · intro _; exact List.mem_singleton.mpr rfl

lemma insightFast_mem_perf_iff (a : ℚ) :
    insightFast ∈ perf_insights a ↔ a < 1 := by
  unfold perf_insights
  split_ifs with h1 h2
  · simp [h1]
  · constructor
    · intro hm; exact absurd (List.mem_singleton.mp hm) (by decide)
    · intro hlt; exact absurd hlt h1
  · constructor
    · intro hm; exact absurd (List.mem_singleton.mp hm) (by decide)
    · intro hlt; exact absurd hlt h1

lemma insightOkPerf_mem_perf_iff (a : ℚ) :
    insightOkPerf ∈ perf_insights a ↔ 1 ≤ a ∧ a < 3 := by
  unfold perf_insights
  split_ifs with h1 h2
  · constructor
    · intro hm; exact absurd (List.mem_singleton.mp hm) (by decide)
    · rintro ⟨hge, -⟩; exact absurd h1 (not_lt.mpr hge)
  · constructor
    · intro _; exact ⟨not_lt.mp h1, h2⟩
    · intro _; exact List.mem_singleton.mpr rfl
  · constructor
    · intro hm; exact absurd (List.mem_singleton.mp hm) (by decide)
    · rintro ⟨-, hlt⟩; exact absurd hlt h2

lemma insightSlow_mem_perf_iff (a : ℚ) :
    insightSlow ∈ perf_insights a ↔ 3 ≤ a := by
  unfold perf_insights
  split_ifs with h1 h2
  · constructor
    · intro hm; exact absurd (List.mem_singleton.mp hm) (by decide)
    · intro hge; exact (False.elim (by linarith))
  · constructor
    · intro hm; exact absurd (List.mem_singleton.mp hm) (by decide)
    · intro hge; exact absurd h2 (not_lt.mpr hge)
  · constructor
    · intro _; exact not_lt.mp h2
    · intro _; exact List.mem_singleton.mpr rfl

lemma insightSecOk_mem_iff (sec : List OutcomeRecord) :
    insightSecOk ∈ security_insights sec ↔
      sec ≠ [] ∧ ∀ r ∈ sec, r.status = "PASS" := by
  unfold security_insights
  split_ifs with h1 h2
  · exact ⟨fun _ => h1, fun _ => List.mem_singleton.mpr rfl⟩
  · constructor
    · intro hm; exact absurd (List.mem_singleton.mp hm) (by decide)
    · intro hc; exact absurd hc h1
  · constructor
    · intro hm; exact absurd hm (List.not_mem_nil _)
    · intro hc; exact absurd hc h1

lemma insightSecVuln_mem_iff (sec : List OutcomeRecord) :
    insightSecVuln ∈ security_insights sec ↔
      sec ≠ [] ∧ ¬ ∀ r ∈ sec, r.status = "PASS" := by
  unfold security_insights
  split_ifs with h1 h2
  · constructor
    · intro hm; exact absurd (List.mem_singleton.mp hm) (by decide)
    · rintro ⟨-, hnall⟩; exact absurd h1.2 hnall
  · constructor
    · intro _; exact ⟨h2, fun hall => h1 ⟨h2, hall⟩⟩
    · intro _; exact List.mem_singleton.mpr rfl
  · constructor
    · intro hm; exact absurd hm (List.not_mem_nil _)
    · rintro ⟨hne, -⟩; exact absurd hne h2

lemma success_rate_nonneg (rs : List OutcomeRecord) : 0 ≤ success_rate rs := by
  unfold success_rate
  split_ifs with h
  · positivity
  · exact le_refl 0

lemma success_rate_le_100 (rs : List OutcomeRecord) : success_rate rs ≤ 100 := by
  unfold success_rate
  split_ifs with h
  · have hple : passedCount rs ≤ rs.length := List.length_filter_le _ _
    have hp : (passedCount rs : ℚ) ≤ (rs.length : ℚ) := by exact_mod_cast hple
    have hn : (0 : ℚ) < rs.length := by exact_mod_cast h
    have hdiv : (passedCount rs : ℚ) / rs.length ≤ 1 := by
      rw [div_le_one hn]; exact hp
    nlinarith
  · norm_num

/-- Claim C1 (refuting the never-fails reading): on the empty record list
the aggregator does not return a report at all; the none result models the
ZeroDivisionError that the unguarded average-time division raises.  The
success-rate computation of the very same function guards its division and
yields 0 on the empty list, so the fault is a slip, not a design. -/
theorem c1_empty_list_fault :
    generate_ai_analytics [] 0 = none ∧ success_rate [] = 0 ∧
      passedCount [] = 0 ∧ failedCount [] = 0 :=
  ⟨rfl, rfl, rfl, rfl⟩

/-- Claim C8: the computed success rate always lies in the closed interval
from 0 to 100, equals passed over total times 100 on a non-empty list, and
equals 0 on the empty list. -/
theorem c8_success_rate_bounds (rs : List OutcomeRecord) :
    0 ≤ success_rate rs ∧ success_rate rs ≤ 100 ∧
    (rs ≠ [] → success_rate rs = (passedCount rs : ℚ) / rs.length * 100) ∧
    (rs = [] → success_rate rs = 0) := by
  refine ⟨success_rate_nonneg rs, success_rate_le_100 rs, ?_, ?_⟩
  · intro h
    unfold success_rate
    rw [if_pos (List.length_pos.mpr h)]
  · intro h
    subst h
    rfl

theorem c8_success_rate_bounds_witness : success_rate [] = 0 :=
  (c8_success_rate_bounds []).2.2.2 rfl

/-- Claim C9: both the rule-based classifier and the aggregator are
deterministic functions of their inputs; two calls on equal inputs give
equal outputs, insight strings included. -/
theorem c9_determinism :
    (∀ (u₁ p₁ u₂ p₂ : List Char), u₁ = u₂ → p₁ = p₂ →
      ai_determine_result u₁ p₁ = ai_determine_result u₂ p₂) ∧
    (∀ (rs₁ rs₂ : List OutcomeRecord) (t₁ t₂ : ℚ), rs₁ = rs₂ → t₁ = t₂ →
      generate_ai_analytics rs₁ t₁ = generate_ai_analytics rs₂ t₂) := by
  constructor
  · intro u₁ p₁ u₂ p₂ hu hp
    rw [hu, hp]
  · intro rs₁ rs₂ t₁ t₂ hr ht
    rw [hr, ht]

theorem c9_determinism_witness :
    ai_determine_result validUsername validPassword =
      ai_determine_result validUsername validPassword :=
  c9_determinism.1 validUsername validPassword validUsername validPassword rfl rfl

lemma rate_insights_length_le (r : ℚ) : (rate_insights r).length ≤ 1 := by
  unfold rate_insights
  split_ifs <;> simp

lemma security_insights_length_le (sec : List OutcomeRecord) :
    (security_insights sec).length ≤ 1 := by
  unfold security_insights
  split_ifs <;> simp

lemma perf_insights_length_le (a : ℚ) : (perf_insights a).length ≤ 1 := by
  unfold perf_insights
  split_ifs <;> simp

/-- Claim C5: the qualitative insights follow the fixed thresholds.  On any
non-empty record list the report exists and holds the perfect-execution
insight exactly when the success rate is 100, the excellent insight exactly
on rates in 90 to 100 exclusive, the good insight exactly on 75 to 90, the
needs-review insight exactly below 75; independently the fast, acceptable
and slow performance insights partition the average execution time at 1
and 3 seconds; and each rule contributes at most one string. -/
theorem c5_insight_thresholds (rs : List OutcomeRecord) (t : ℚ) (h : rs ≠ []) :
    ∃ rep, generate_ai_analytics rs t = some rep ∧
      rep.ai_insights = rate_insights (success_rate rs) ++
        security_insights (security_tests rs) ++
        perf_insights (avg_execution_time rs) ∧
      (insightPerfect ∈ rep.ai_insights ↔ success_rate rs = 100) ∧
      (insightExcellent ∈ rep.ai_insights ↔
        90 ≤ success_rate rs ∧ success_rate rs < 100) ∧
      (insightGood ∈ rep.ai_insights ↔
        75 ≤ success_rate rs ∧ success_rate rs < 90) ∧
      (insightReview ∈ rep.ai_insights ↔ success_rate rs < 75) ∧
      (insightFast ∈ rep.ai_insights ↔ avg_execution_time rs < 1) ∧
      (insightOkPerf ∈ rep.ai_insights ↔
        1 ≤ avg_execution_time rs ∧ avg_execution_time rs < 3) ∧
      (insightSlow ∈ rep.ai_insights ↔ 3 ≤ avg_execution_time rs) ∧
      (rate_insights (success_rate rs)).length ≤ 1 ∧
      (security_insights (security_tests rs)).length ≤ 1 ∧
      (perf_insights (avg_execution_time rs)).length ≤ 1 := by
  refine ⟨_, generate_ai_analytics_of_ne_nil rs t h, rfl,
    ?_, ?_, ?_, ?_, ?_, ?_, ?_,
    rate_insights_length_le _, security_insights_length_le _,
    perf_insights_length_le _⟩
  · show insightPerfect ∈ rate_insights (success_rate rs) ++
        security_insights (security_tests rs) ++
        perf_insights (avg_execution_time rs) ↔ success_rate rs = 100
    rw [mem_triple_append_left
      (notMem_security_insights (by decide) (by decide) _)
      (notMem_perf_insights (by decide) (by decide) (by decide) _)]
    exact insightPerfect_mem_rate_iff _
  · show insightExcellent ∈ rate_insights (success_rate rs) ++
        security_insights (security_tests rs) ++
        perf_insights (avg_execution_time rs) ↔
        90 ≤ success_rate rs ∧ success_rate rs < 100
    rw [mem_triple_append_left
      (notMem_security_insights (by decide) (by decide) _)
      (notMem_perf_insights (by decide) (by decide) (by decide) _)]
    exact insightExcellent_mem_rate_iff _ (success_rate_le_100 rs)
  · show insightGood ∈ rate_insights (success_rate rs) ++
        security_insights (security_tests rs) ++
        perf_insights (avg_execution_time rs) ↔
        75 ≤ success_rate rs ∧ success_rate rs < 90
    rw [mem_triple_append_left
      (notMem_security_insights (by decide) (by decide) _)
      (notMem_perf_insights (by decide) (by decide) (by decide) _)]
    exact insightGood_mem_rate_iff _
  · show insightReview ∈ rate_insights (success_rate rs) ++
        security_insights (security_tests rs) ++
        perf_insights (avg_execution_time rs) ↔ success_rate rs < 75
    rw [mem_triple_append_left
      (notMem_security_insights (by decide) (by decide) _)
      (notMem_perf_insights (by decide) (by decide) (by decide) _)]
    exact insightReview_mem_rate_iff _
  · show insightFast ∈ rate_insights (success_rate rs) ++
        security_insights (security_tests rs) ++
        perf_insights (avg_execution_time rs) ↔ avg_execution_time rs < 1
    rw [mem_triple_append_right
      (notMem_rate_insights (by decide) (by decide) (by decide) (by decide) _)
      (notMem_security_insights (by decide) (by decide) _)]
    exact insightFast_mem_perf_iff _
  · show insightOkPerf ∈ rate_insights (success_rate rs) ++
        security_insights (security_tests rs) ++
        perf_insights (avg_execution_time rs) ↔
        1 ≤ avg_execution_time rs ∧ avg_execution_time rs < 3
    rw [mem_triple_append_right
      (notMem_rate_insights (by decide) (by decide) (by decide) (by decide) _)
      (notMem_security_insights (by decide) (by decide) _)]
    exact insightOkPerf_mem_perf_iff _
  · show insightSlow ∈ rate_insights (success_rate rs) ++
        security_insights (security_tests rs) ++
        perf_insights (avg_execution_time rs) ↔ 3 ≤ avg_execution_time rs
    rw [mem_triple_append_right
      (notMem_rate_insights (by decide) (by decide) (by decide) (by decide) _)
      (notMem_security_insights (by decide) (by decide) _)]
    exact insightSlow_mem_perf_iff _

/-- A sample passing record used to instantiate the threshold theorem. -/
def sampleRecord : OutcomeRecord :=
  { category := "positive"
    expected_result := "success"
    actual_result := "success"
    status := "PASS"
    execution_time := 1/2
    risk_level := "low"
    ai_confidence := 0.95 }

theorem c5_insight_thresholds_witness :
    ∃ rep, generate_ai_analytics [sampleRecord] 2 = some rep ∧
      (insightPerfect ∈ rep.ai_insights ↔ success_rate [sampleRecord] = 100) := by
  obtain ⟨rep, h1, -, h2, -⟩ :=
    c5_insight_thresholds [sampleRecord] 2 (List.cons_ne_nil _ _)
  exact ⟨rep, h1, h2⟩

/-- First security-category record of the C6 scenario, passing. -/
def secPassRecord1 : OutcomeRecord :=
  { category := "security"
    expected_result := "failure"
    actual_result := "failure"
    status := "PASS"
    execution_time := 1
    risk_level := "critical"
    ai_confidence := 1 }

/-- Second security-category record of the C6 scenario, passing. -/
def secPassRecord2 : OutcomeRecord :=
  { category := "security"
    expected_result := "failure"
    actual_result := "failure"
    status := "PASS"
    execution_time := 1
    risk_level := "critical"
    ai_confidence := 1 }

/-- The failing non-security record of the C6 scenario. -/
def otherFailRecord : OutcomeRecord :=
  { category := "negative"
    expected_result := "failure"
    actual_result := "success"
    status := "FAIL"
    execution_time := 1
    risk_level := "medium"
    ai_confidence := 0.65 }

/-- Claim C6: the security insight rule of the aggregator.  On any
non-empty list, the security-validated insight appears exactly when
security-category records exist and all pass, the possible-vulnerability
insight exactly when they exist and not all pass, and with no
security-category record neither appears.  On the concrete three-record
scenario with two passing security records and one failing other record,
the report holds the security-validated insight and rounds the success
rate to 66.67. -/
theorem c6_security_insight :
    (∀ (rs : List OutcomeRecord) (t : ℚ), rs ≠ [] →
      ∃ rep, generate_ai_analytics rs t = some rep ∧
        (insightSecOk ∈ rep.ai_insights ↔
          security_tests rs ≠ [] ∧ ∀ r ∈ security_tests rs, r.status = "PASS") ∧
        (insightSecVuln ∈ rep.ai_insights ↔
          security_tests rs ≠ [] ∧ ¬ ∀ r ∈ security_tests rs, r.status = "PASS") ∧
        (security_tests rs = [] →
          insightSecOk ∉ rep.ai_insights ∧ insightSecVuln ∉ rep.ai_insights)) ∧
    (∃ rep, generate_ai_analytics [secPassRecord1, secPassRecord2, otherFailRecord] 3
        = some rep ∧
      insightSecOk ∈ rep.ai_insights ∧
      rep.summary.success_rate = 66.67) := by
  constructor
  · intro rs t h
    refine ⟨_, generate_ai_analytics_of_ne_nil rs t h, ?_, ?_, ?_⟩
    · show insightSecOk ∈ rate_insights (success_rate rs) ++
          security_insights (security_tests rs) ++
          perf_insights (avg_execution_time rs) ↔ _
      rw [mem_triple_append_middle
        (notMem_rate_insights (by decide) (by decide) (by decide) (by decide) _)
        (notMem_perf_insights (by decide) (by decide) (by decide) _)]
      exact insightSecOk_mem_iff _
    · show insightSecVuln ∈ rate_insights (success_rate rs) ++
          security_insights (security_tests rs) ++
          perf_insights (avg_execution_time rs) ↔ _
      rw [mem_triple_append_middle
        (notMem_rate_insights (by decide) (by decide) (by decide) (by decide) _)
        (notMem_perf_insights (by decide) (by decide) (by decide) _)]
      exact insightSecVuln_mem_iff _
    · intro hempty
      constructor
      · show insightSecOk ∉ rate_insights (success_rate rs) ++
            security_insights (security_tests rs) ++
            perf_insights (avg_execution_time rs)
        rw [mem_triple_append_middle
          (notMem_rate_insights (by decide) (by decide) (by decide) (by decide) _)
          (notMem_perf_insights (by decide) (by decide) (by decide) _)]
        rw [insightSecOk_mem_iff]
        rintro ⟨hne, -⟩
        exact hne hempty
      · show insightSecVuln ∉ rate_insights (success_rate rs) ++
            security_insights (security_tests rs) ++
            perf_insights (avg_execution_time rs)
        rw [mem_triple_append_middle
          (notMem_rate_insights (by decide) (by decide) (by decide) (by decide) _)
          (notMem_perf_insights (by decide) (by decide) (by decide) _)]
        rw [insightSecVuln_mem_iff]
        rintro ⟨hne, -⟩
        exact hne hempty
  · refine ⟨_, generate_ai_analytics_of_ne_nil _ 3 (List.cons_ne_nil _ _), ?_, ?_⟩
    · show insightSecOk ∈
          rate_insights (success_rate [secPassRecord1, secPassRecord2, otherFailRecord]) ++
          security_insights (security_tests [secPassRecord1, secPassRecord2, otherFailRecord]) ++
          perf_insights (avg_execution_time [secPassRecord1, secPassRecord2, otherFailRecord])
      rw [mem_triple_append_middle
        (notMem_rate_insights (by decide) (by decide) (by decide) (by decide) _)
        (notMem_perf_insights (by decide) (by decide) (by decide) _),
        insightSecOk_mem_iff]
      have hsec : security_tests [secPassRecord1, secPassRecord2, otherFailRecord]
          = [secPassRecord1, secPassRecord2] := rfl
      rw [hsec]
      refine ⟨List.cons_ne_nil _ _, ?_⟩
      intro r hr
      simp only [List.mem_cons, List.not_mem_nil, or_false] at hr
      rcases hr with rfl | rfl
      · rfl
      · rfl
    · show pyRound 2 (success_rate [secPassRecord1, secPassRecord2, otherFailRecord]) = 66.67
      have hp : passedCount [secPassRecord1, secPassRecord2, otherFailRecord] = 2 := rfl
      have hlen : ([secPassRecord1, secPassRecord2, otherFailRecord] :
          List OutcomeRecord).length = 3 := rfl
      have h1 : success_rate [secPassRecord1, secPassRecord2, otherFailRecord] = 200 / 3 := by
        simp only [success_rate, hp, hlen]
        norm_num
      rw [h1]
      have hf : ⌊(200 / 3 * 10 ^ 2 : ℚ)⌋ = 6666 := by norm_num
      have h2 : roundHalfEven (200 / 3 * 10 ^ 2 : ℚ) = 6667 := by
        simp only [roundHalfEven, hf]
        norm_num
      simp only [pyRound, h2]
      norm_num

theorem c6_security_insight_witness :
    ∃ rep, generate_ai_analytics [otherFailRecord] 1 = some rep ∧
      (insightSecOk ∉ rep.ai_insights ∧ insightSecVuln ∉ rep.ai_insights) := by
  obtain ⟨rep, h1, -, -, h2⟩ :=
    c6_security_insight.1 [otherFailRecord] 1 (List.cons_ne_nil _ _)
  exact ⟨rep, h1, h2 (by decide)⟩

/-- Claim C10: the simulated confidence score always lies between 0.5 and
1.0; the base is 0.95 for the security category, 0.80 for the edge_case
category and 0.85 otherwise; on a match the score is the base plus 0.10
clamped above at 1.0, on a mismatch the base minus 0.20 clamped below at
0.5. -/
theorem c10_confidence_bounds (category expected actual : String) :
    (1/2 : ℚ) ≤ calculate_ai_confidence category expected actual ∧
    calculate_ai_confidence category expected actual ≤ 1 ∧
    ai_confidence_base "security" = 0.95 ∧
    ai_confidence_base "edge_case" = 0.80 ∧
    (category ≠ "security" → category ≠ "edge_case" →
      ai_confidence_base category = 0.85) ∧
    (actual = expected →
      calculate_ai_confidence category expected actual =
        min (ai_confidence_base category + 0.10) 1.0) ∧
    (actual ≠ expected →
      calculate_ai_confidence category expected actual =
        max (ai_confidence_base category - 0.20) 0.5) := by
  have hbase : ai_confidence_base category = 0.95 ∨
      ai_confidence_base category = 0.80 ∨ ai_confidence_base category = 0.85 := by
    simp only [ai_confidence_base]
    split_ifs <;> norm_num
  have hb1 : (1/2 : ℚ) ≤ calculate_ai_confidence category expected actual := by
    unfold calculate_ai_confidence
    rcases hbase with hb | hb | hb <;> rw [hb] <;> split_ifs <;>
      norm_num [min_def, max_def]
  have hb2 : calculate_ai_confidence category expected actual ≤ 1 := by
    unfold calculate_ai_confidence
    rcases hbase with hb | hb | hb <;> rw [hb] <;> split_ifs <;>
      norm_num [min_def, max_def]
  have hsec95 : ai_confidence_base "security" = 0.95 := by
    simp [ai_confidence_base]
  have hedge80 : ai_confidence_base "edge_case" = 0.80 := by
    simp [ai_confidence_base]
  refine ⟨hb1, hb2, hsec95, hedge80, ?_, ?_, ?_⟩
  · intro hs he
    simp [ai_confidence_base, hs, he]
  · intro hm
    unfold calculate_ai_confidence
    rw [if_pos hm]
  · intro hm
    unfold calculate_ai_confidence
    rw [if_neg hm]

theorem c10_confidence_bounds_witness :
    calculate_ai_confidence "security" "failure" "failure" =
      min (ai_confidence_base "security" + 0.10) 1.0 :=
  (c10_confidence_bounds "security" "failure" "failure").2.2.2.2.2.1 rfl
